import Mathlib

/-!
Verification of the device-tracker dashboard map widget
(src/app/components/GoogleMap.tsx and the page shell).

The TypeScript source is embedded shallowly: the widget state kept with
React state hooks becomes an explicit record, each effect and callback
becomes a pure function on that record, and the JSX view computation
becomes a pure derivation function. Coordinates are embedded as exact
rationals; the source only stores and compares them, it never performs
floating-point arithmetic on them.
-/

namespace DeviceTracker

/-- A latitude/longitude pair (google.maps.LatLngLiteral). -/
structure LatLng where
  lat : Rat
  lng : Rat
deriving DecidableEq, Repr

/-- The geolocation state kept by the GoogleMap widget
(GoogleMap.tsx lines 135-138): userLocation, locationError,
isLoadingLocation. -/
structure GeoState where
  userLocation : Option LatLng
  locationError : Option String
  isLoadingLocation : Bool
deriving DecidableEq, Repr

/-- State at mount: useState(null), useState(null), useState(true). -/
def initialGeoState : GeoState :=
  { userLocation := none, locationError := none, isLoadingLocation := true }

/-- Error message set when the capability is absent (line 147). -/
def notSupportedMsg : String := "Geolocation is not supported by this browser"

/-- The branch taken when navigator.geolocation is absent
(lines 146-150): set the error, clear the loading flag, return. -/
def applyUnsupported (s : GeoState) : GeoState :=
  { s with locationError := some notSupportedMsg, isLoadingLocation := false }

/-- The getCurrentPosition success callback (lines 153-161):
store the coordinates and clear the loading flag. -/
def applySuccess (pos : LatLng) (s : GeoState) : GeoState :=
  { s with userLocation := some pos, isLoadingLocation := false }

/-- The getCurrentPosition error callback (lines 162-166):
store the error message and clear the loading flag. -/
def applyFailure (msg : String) (s : GeoState) : GeoState :=
  { s with locationError := some msg, isLoadingLocation := false }

/-- The options record passed to getCurrentPosition (lines 167-171). -/
structure GeoRequest where
  enableHighAccuracy : Bool
  timeout : Nat
  maximumAge : Nat
deriving DecidableEq, Repr

/-- The concrete options the widget uses: enableHighAccuracy true,
timeout 10000 ms, maximumAge 60000 ms. -/
def geoRequestOptions : GeoRequest :=
  { enableHighAccuracy := true, timeout := 10000, maximumAge := 60000 }

/-- Outcome of a geolocation request delivered by the environment. -/
inductive GeoOutcome
  | success (pos : LatLng)
  | failure (msg : String)

/-- The environment seen by the mount effect: the capability is either
absent, or present with an outcome that is still pending (none) or
eventually delivered. -/
inductive GeoEnv
  | unsupported
  | supported (outcome : Option GeoOutcome)

/-- The mount effect (lines 143-173), run once with empty dependency
list: if the capability is absent set the error and stop; otherwise
issue one getCurrentPosition request and apply whichever callback the
environment eventually invokes. Returns the resulting state and the
list of requests issued to the capability. -/
def mountEffect : GeoEnv → GeoState × List GeoRequest
  | .unsupported => (applyUnsupported initialGeoState, [])
  | .supported outcome =>
      (match outcome with
       | none => initialGeoState
       | some (.success pos) => applySuccess pos initialGeoState
       | some (.failure msg) => applyFailure msg initialGeoState,
       [geoRequestOptions])

/-- The geolocation states the widget can be observed in: the mount
state, and the state after each of the three transitions the effect can
perform (unsupported branch, success callback, error callback). -/
inductive Reachable : GeoState → Prop
  | mount : Reachable initialGeoState
  | unsupported : Reachable (applyUnsupported initialGeoState)
  | success (pos : LatLng) : Reachable (applySuccess pos initialGeoState)
  | failure (msg : String) : Reachable (applyFailure msg initialGeoState)

/-- Fallback center, San Francisco (line 141). -/
def defaultCenter : LatLng := { lat := 37.7749, lng := -122.4194 }

/-- The view computed by the render body once loading is over
(lines 188-214): map center and zoom, marker position and title. -/
structure MapView where
  center : LatLng
  zoom : Nat
  markerPosition : LatLng
  markerTitle : String
deriving DecidableEq, Repr

/-- View derivation (lines 188-214): center = userLocation or the
fallback, zoom = 15 when resolved else 10, marker placed at the same
center, marker title chosen by whether the location resolved. -/
def deriveView (s : GeoState) : MapView :=
  let center := s.userLocation.getD defaultCenter
  { center := center
    zoom := if s.userLocation.isSome then 15 else 10
    markerPosition := center
    markerTitle :=
      if s.userLocation.isSome then "Your Current Location" else "Default Location" }

/-- JavaScript string disjunction a || b: the left operand wins unless
it is absent (undefined) or the empty string, the only falsy strings. -/
def jsOrString (a : Option String) (b : String) : String :=
  match a with
  | some s => if s = "" then b else s
  | none => b

/-- A google.maps.Map instance as configured by the Map component
(lines 19-25): an identity, the mutable center and zoom, and the three
control flags the constructor disables. -/
structure MapInstance where
  id : Nat
  center : LatLng
  zoom : Nat
  mapTypeControl : Bool
  streetViewControl : Bool
  fullscreenControl : Bool
deriving DecidableEq, Repr

/-- The Map component creation effect (lines 16-28): construct a new
map instance only when the DOM surface exists and no instance does yet.
Returns the instance slot and whether a construction happened. -/
def mapCreateEffect (nextId : Nat) (refPresent : Bool) (m : Option MapInstance)
    (center : LatLng) (zoom : Nat) : Option MapInstance × Bool :=
  if refPresent && m.isNone then
    (some { id := nextId, center := center, zoom := zoom,
            mapTypeControl := false, streetViewControl := false,
            fullscreenControl := false }, true)
  else
    (m, false)

/-- The Map component update effect (lines 30-35): when an instance
exists, map.setCenter and map.setZoom mutate it in place. -/
def mapSetEffect (m : Option MapInstance) (center : LatLng) (zoom : Nat) :
    Option MapInstance :=
  match m with
  | none => none
  | some inst => some { inst with center := center, zoom := zoom }

/-- One render cycle of the Map component: the creation effect followed
by the setCenter/setZoom effect. -/
def mapRenderCycle (nextId : Nat) (refPresent : Bool) (m : Option MapInstance)
    (center : LatLng) (zoom : Nat) : Option MapInstance × Bool :=
  let step := mapCreateEffect nextId refPresent m center zoom
  (mapSetEffect step.1 center zoom, step.2)

/-- A google.maps.Marker instance as configured by the Marker component
(lines 60-69): an identity, the mutable position, the map association,
and the title. The icon is a fixed constant in the source and carries no
state. -/
structure MarkerInstance where
  id : Nat
  position : LatLng
  mapId : Option Nat
  title : String
deriving DecidableEq, Repr

/-- The Marker component creation effect (lines 58-71): construct a new
marker only when none exists and a map is attached; the title falls back
through title || "Your Location". Returns the instance slot and whether
a construction happened. -/
def markerCreateEffect (nextId : Nat) (marker : Option MarkerInstance)
    (mapId : Option Nat) (pos : LatLng) (title : Option String) :
    Option MarkerInstance × Bool :=
  match marker, mapId with
  | none, some mid =>
      (some { id := nextId, position := pos, mapId := some mid,
              title := jsOrString title "Your Location" }, true)
  | m, _ => (m, false)

/-- The Marker component position effect (lines 80-84): when an
instance exists, marker.setPosition mutates it in place. -/
def markerSetEffect (marker : Option MarkerInstance) (pos : LatLng) :
    Option MarkerInstance :=
  match marker with
  | none => none
  | some inst => some { inst with position := pos }

/-- The Marker effect cleanup (lines 73-77): when a marker exists, its
map association is set to null before the instance is discarded. -/
def markerCleanup (marker : Option MarkerInstance) : Option MarkerInstance :=
  match marker with
  | none => none
  | some inst => some { inst with mapId := none }

/-- The dependency values of the Marker creation effect, line 78:
[marker, map, position, title]; the marker state is compared by
instance identity, here its id since at most one instance ever
exists. -/
structure MarkerDeps where
  markerId : Option Nat
  mapId : Option Nat
  position : LatLng
  title : Option String
deriving DecidableEq, Repr

/-- The per-render bookkeeping of the Marker component: the single
instance slot (aliased by every effect closure, since at most one
instance is ever constructed), whether the pending cleanup closure of
the creation effect captured a constructed marker, and the dependency
values at the last run of each effect (none when the effect never
ran). -/
structure MarkerComp where
  marker : Option MarkerInstance
  capturedSome : Bool
  lastCreateDeps : Option MarkerDeps
  lastPosDeps : Option (Option Nat × LatLng)
deriving DecidableEq, Repr

/-- Marker component state before any effect has run. -/
def markerCompInit : MarkerComp :=
  { marker := none, capturedSome := false,
    lastCreateDeps := none, lastPosDeps := none }

/-- Running the pending cleanup of the creation effect (lines 73-77):
its closure calls marker.setMap(null) exactly when it captured a
constructed marker; the one instance is shared, so the detachment is
visible through the state slot. -/
def markerCleanupRun (c : MarkerComp) : Option MarkerInstance :=
  if c.capturedSome then markerCleanup c.marker else c.marker

/-- One committed render of the Marker component under the host
framework effect rules: an effect is processed only when its dependency
values changed since its last run; processing the creation effect
(lines 58-78) first runs the previous cleanup, which detaches a
captured marker, then the body, which constructs only when no instance
exists and a map is attached; the position effect (lines 80-84) then
calls setPosition through its render snapshot of the marker state,
which is still empty during the constructing render. Returns the new
bookkeeping and whether a construction happened. -/
def markerCommit (nextId : Nat) (c : MarkerComp) (mapId : Option Nat)
    (pos : LatLng) (t : Option String) : MarkerComp × Bool :=
  let snapSome : Bool := c.marker.isSome
  let createDeps : MarkerDeps :=
    { markerId := c.marker.map MarkerInstance.id, mapId := mapId,
      position := pos, title := t }
  let posDeps : Option Nat × LatLng := (c.marker.map MarkerInstance.id, pos)
  let afterCreate : Option MarkerInstance × Bool :=
    if c.lastCreateDeps = some createDeps then (c.marker, false)
    else markerCreateEffect nextId (markerCleanupRun c) mapId pos t
  let afterPos : Option MarkerInstance :=
    if c.lastPosDeps = some posDeps then afterCreate.1
    else if snapSome then markerSetEffect afterCreate.1 pos else afterCreate.1
  ({ marker := afterPos,
     capturedSome :=
       if c.lastCreateDeps = some createDeps then c.capturedSome else snapSome,
     lastCreateDeps :=
       if c.lastCreateDeps = some createDeps then c.lastCreateDeps
       else some createDeps,
     lastPosDeps :=
       if c.lastPosDeps = some posDeps then c.lastPosDeps else some posDeps },
   afterCreate.2)

/-- A committed render followed by the extra commit the state setter
schedules when the creation effect constructed an instance (setMarker
re-renders with the same props; the second commit constructs nothing,
so the component is then stable). -/
def markerRenderSettle (nextId : Nat) (c : MarkerComp) (mapId : Option Nat)
    (pos : LatLng) (t : Option String) : MarkerComp × Bool :=
  let first := markerCommit nextId c mapId pos t
  if first.2 then ((markerCommit nextId first.1 mapId pos t).1, true) else first

/-- The steady state after mounting a Marker with map 0, position
lat 40, lng -74 and title "Your Current Location": the instance is
constructed and attached to map 0. -/
def markerSteadyExample : MarkerComp :=
  (markerRenderSettle 1 markerCompInit (some 0) { lat := 40, lng := -74 }
    (some "Your Current Location")).1

/-- Teardown of the whole widget: the Marker cleanup runs; the Map
component registers no cleanup, so the map instance is left untouched. -/
def widgetTeardown (m : Option MapInstance) (marker : Option MarkerInstance) :
    Option MapInstance × Option MarkerInstance :=
  (m, markerCleanup marker)

/-- A live or discarded widget instance: the geolocation state container
together with a mounted flag. -/
structure WidgetInstance where
  mounted : Bool
  state : GeoState
deriving DecidableEq, Repr

/-- Modelled from the spec: the host UI framework applies a state
setter only to a mounted widget instance; on a discarded instance the
setter is a no-op that returns normally ("the result callback firing
later should be a no-op rather than mutate a discarded state
container"). This guard lives in the framework, outside src/. -/
def applyIfMounted (w : WidgetInstance) (f : GeoState → GeoState) : WidgetInstance :=
  if w.mounted then { w with state := f w.state } else w

/-- The success callback as delivered to a widget instance. -/
def successCallback (pos : LatLng) (w : WidgetInstance) : WidgetInstance :=
  applyIfMounted w (applySuccess pos)

/-- The error callback as delivered to a widget instance. -/
def failureCallback (msg : String) (w : WidgetInstance) : WidgetInstance :=
  applyIfMounted w (applyFailure msg)

/-- Unmounting the widget discards the instance; the geolocation effect
registers no cleanup, so nothing else happens. -/
def unmountWidget (w : WidgetInstance) : WidgetInstance :=
  { w with mounted := false }

/-- What the map section of the page shell renders
(src/unnamed/part_000 lines 71-122): the map widget with the key, or
the static placeholder panel. -/
inductive HomeMapSection
  | map (apiKey : String)
  | placeholder
deriving DecidableEq, Repr

/-- The page shell (src/unnamed/part_000 lines 5 and 71): the key is
process.env value || "", and the map widget is mounted only when that
string is truthy, else the placeholder panel is rendered. -/
def homeMapSection (env : Option String) : HomeMapSection :=
  let googleMapsApiKey := jsOrString env ""
  if googleMapsApiKey = "" then .placeholder else .map googleMapsApiKey

/-- Exactly one of three statements holds. -/
def ExactlyOne (a b c : Prop) : Prop :=
  (a ∧ ¬b ∧ ¬c) ∨ (¬a ∧ b ∧ ¬c) ∨ (¬a ∧ ¬b ∧ c)

/-- The loading phase: loading flag set, no location, no error. -/
def PhaseLoading (s : GeoState) : Prop :=
  s.isLoadingLocation = true ∧ s.userLocation = none ∧ s.locationError = none

/-- The resolved phase: loading over, a location set, no error. -/
def PhaseResolved (s : GeoState) : Prop :=
  s.isLoadingLocation = false ∧ s.userLocation.isSome = true ∧ s.locationError = none

/-- The error/fallback phase: loading over, an error set, no location. -/
def PhaseError (s : GeoState) : Prop :=
  s.isLoadingLocation = false ∧ s.userLocation = none ∧ s.locationError.isSome = true

/-- Claim C1: view-state derivation is a total deterministic function of
the settled geolocation state: zoom = 15 exactly when the location
resolved, zoom = 10 exactly when the fallback is used, the center equals
the resolved position when resolved, and a success with lat 40.0,
lng -74.0 yields that center, zoom 15 and marker title
"Your Current Location". -/
theorem c1_view_state_derivation (s : GeoState) (h : s.isLoadingLocation = false) :
    ((deriveView s).zoom = 15 ↔ s.userLocation.isSome = true)
    ∧ ((deriveView s).zoom = 10 ↔ s.userLocation = none)
    ∧ (∀ pos : LatLng, s.userLocation = some pos → (deriveView s).center = pos)
    ∧ deriveView (applySuccess { lat := 40, lng := -74 } initialGeoState) =
        { center := { lat := 40, lng := -74 }, zoom := 15,
          markerPosition := { lat := 40, lng := -74 },
          markerTitle := "Your Current Location" } := by
  refine ⟨?_, ?_, ?_, rfl⟩ <;> cases hu : s.userLocation <;>
    simp [deriveView, hu]

/-- Witness for C1 at the settled state reached by a concrete success. -/
theorem c1_view_state_derivation_witness :
    (applySuccess { lat := 40, lng := -74 } initialGeoState).isLoadingLocation = false
    ∧ (deriveView (applySuccess { lat := 40, lng := -74 } initialGeoState)).zoom = 15 := by
  have h := c1_view_state_derivation
    (applySuccess { lat := 40, lng := -74 } initialGeoState) rfl
  exact ⟨rfl, h.1.mpr rfl⟩

/-- Claim C2: after every transition of the geolocation state (mount,
success callback, error callback, unsupported branch) exactly one of
the loading phase, the resolved phase and the error phase holds. -/
theorem c2_exactly_one_phase (s : GeoState) (h : Reachable s) :
    ExactlyOne (PhaseLoading s) (PhaseResolved s) (PhaseError s) := by
  cases h <;>
    simp [ExactlyOne, PhaseLoading, PhaseResolved, PhaseError,
      initialGeoState, applyUnsupported, applySuccess, applyFailure,
      notSupportedMsg]

/-- Witness for C2 at the mount state. -/
theorem c2_exactly_one_phase_witness :
    ExactlyOne (PhaseLoading initialGeoState) (PhaseResolved initialGeoState)
      (PhaseError initialGeoState) :=
  c2_exactly_one_phase initialGeoState Reachable.mount

/-- Claim C3: a geolocation callback delivered after the widget
unmounted returns normally (it is a total function) and leaves the
discarded widget instance exactly as it was: a no-op on widget state. -/
theorem c3_unmount_callback_noop (w : WidgetInstance) (pos : LatLng) (msg : String) :
    successCallback pos (unmountWidget w) = unmountWidget w
    ∧ failureCallback msg (unmountWidget w) = unmountWidget w := by
  constructor <;>
    simp [successCallback, failureCallback, applyIfMounted, unmountWidget]

/-- Claim C4: when the geolocation capability is absent the widget sets
the error "Geolocation is not supported by this browser", clears the
loading flag, issues no request, and the derived view uses the fallback
center lat 37.7749, lng -122.4194, zoom 10 and marker title
"Default Location". -/
theorem c4_unsupported_immediate_error :
    mountEffect .unsupported =
      ({ userLocation := none,
         locationError := some "Geolocation is not supported by this browser",
         isLoadingLocation := false }, [])
    ∧ deriveView (mountEffect .unsupported).1 =
      { center := { lat := 37.7749, lng := -122.4194 }, zoom := 10,
        markerPosition := { lat := 37.7749, lng := -122.4194 },
        markerTitle := "Default Location" } := by
  exact ⟨rfl, rfl⟩

/-- Claim C5 fails on the code: at the steady state the marker is
attached to map 0, yet a render with a new center runs the creation
effect cleanup marker.setMap(null) — position is in that effect
dependency list — before setPosition, so the existing instance is
repositioned without a new construction but left detached from the map,
not updated in place as the claim states. The spec places the detach at
teardown only, so the code is the slip. -/
theorem c5_center_change_detaches_marker :
    markerSteadyExample.marker =
      some { id := 1, position := { lat := 40, lng := -74 }, mapId := some 0,
             title := "Your Current Location" }
    ∧ (markerRenderSettle 1 markerSteadyExample (some 0)
        { lat := 41, lng := -74 } (some "Your Current Location")).1.marker =
      some { id := 1, position := { lat := 41, lng := -74 }, mapId := none,
             title := "Your Current Location" }
    ∧ (markerRenderSettle 1 markerSteadyExample (some 0)
        { lat := 41, lng := -74 } (some "Your Current Location")).2 = false := by
  refine ⟨?_, ?_, ?_⟩ <;> rfl

/-- Claim C6: when the capability is present, the mount effect issues
exactly one request, with enableHighAccuracy true, timeout 10000 ms and
maximumAge 60000 ms, whatever the outcome turns out to be. -/
theorem c6_single_request_with_options (outcome : Option GeoOutcome) :
    (mountEffect (.supported outcome)).2 =
      [{ enableHighAccuracy := true, timeout := 10000, maximumAge := 60000 }] := by
  rfl

/-- Claim C7: an absent or empty API key makes the page shell render
the placeholder panel; the map branch is never taken, so no map widget
is constructed, and the derivation is a total function (no crash). -/
theorem c7_missing_key_placeholder (env : Option String)
    (h : env = none ∨ env = some "") :
    homeMapSection env = .placeholder := by
  rcases h with h | h <;> subst h <;> rfl

/-- Witness for C7 with the environment variable unset. -/
theorem c7_missing_key_placeholder_witness :
    homeMapSection none = HomeMapSection.placeholder :=
  c7_missing_key_placeholder none (Or.inl rfl)

/-- Claim C8: teardown detaches an existing marker from the map by
clearing its map association, and never destroys the map instance. -/
theorem c8_teardown_detaches_marker (m : Option MapInstance)
    (mk : MarkerInstance) (mk0 : Option MarkerInstance) :
    widgetTeardown m (some mk) = (m, some { mk with mapId := none })
    ∧ (widgetTeardown m mk0).1 = m := by
  exact ⟨rfl, rfl⟩

/-- Claim C9: in every settled view state the marker position equals
the map center; in particular the position handed to the marker
constructor and to setPosition is the derived center. -/
theorem c9_marker_at_center (s : GeoState) (h : s.isLoadingLocation = false) :
    (deriveView s).markerPosition = (deriveView s).center
    ∧ (∀ (nm mid : Nat),
        ((markerCreateEffect nm none (some mid) (deriveView s).markerPosition
            (some (deriveView s).markerTitle)).1.map MarkerInstance.position)
          = some (deriveView s).center)
    ∧ (∀ mk : MarkerInstance,
        markerSetEffect (some mk) (deriveView s).markerPosition =
          some { mk with position := (deriveView s).center }) := by
  refine ⟨rfl, fun nm mid => rfl, fun mk => rfl⟩

/-- Witness for C9 at the settled state of the unsupported branch. -/
theorem c9_marker_at_center_witness :
    (applyUnsupported initialGeoState).isLoadingLocation = false
    ∧ (deriveView (applyUnsupported initialGeoState)).markerPosition
        = (deriveView (applyUnsupported initialGeoState)).center :=
  ⟨rfl, (c9_marker_at_center (applyUnsupported initialGeoState) rfl).1⟩

/-- Claim C10: a marker created with the title absent or empty gets the
default title "Your Location". -/
theorem c10_marker_title_default (t : Option String)
    (h : t = none ∨ t = some "") (n mid : Nat) (pos : LatLng) :
    (markerCreateEffect n none (some mid) pos t).1.map MarkerInstance.title
      = some "Your Location" := by
  rcases h with h | h <;> subst h <;> rfl

/-- Witness for C10 with the title absent. -/
theorem c10_marker_title_default_witness :
    (markerCreateEffect 0 none (some 0) { lat := 0, lng := 0 } none).1.map
        MarkerInstance.title = some "Your Location" :=
  c10_marker_title_default none (Or.inl rfl) 0 0 { lat := 0, lng := 0 }

end DeviceTracker
